import Mathlib

/-!
# Verification of the Dottore Genius Invokation TCG simulator engine

A shallow embedding, in Lean 4, of the parts of the simulator that the
checked specification sentences talk about: the damage and energy-recharge
effects (`dgisim/src/event/effect.py`), the usage/shield/boost status
templates and some concrete statuses (`src/dgisim/status/status.py`), the
card-select redraw phase (`src/dgisim/phase/default/card_select_phase.py`),
the cards multiset container (`src/dgisim/card/cards.py`), and the dice pool
with its exact-payment predicate (spec §4.1; the dice module itself ships
only with its tests here, so it is modelled from the spec).

Python `int`s are modelled as `Int` (counts that the code keeps
non-negative are modelled as `Nat` where noted).  Python's `None`-or-value
returns are modelled as `Option`.  Immutable dataclass `replace` is
modelled by structure update.
-/

namespace Dgisim

/-- The elements of the game (`dgisim/element.py`).  `omni` and `anyElem` are
the wildcard dice/requirement elements, `physical` and `piercing` are
damage-only elements. -/
inductive Element where
  | omni
  | pyro
  | hydro
  | anemo
  | electro
  | dendro
  | cryo
  | geo
  | physical
  | piercing
  | anyElem
  deriving DecidableEq, Repr, Fintype

/-- Player identifiers (`state/enums.py`). -/
inductive Pid where
  | p1
  | p2
  deriving DecidableEq, Repr, Fintype

/-- The opposing player. -/
def Pid.other : Pid → Pid
  | .p1 => .p2
  | .p2 => .p1

/-- Zones of the addressing scheme (`dgisim/src/event/effect.py`, `Zone`). -/
inductive Zone where
  | character
  | summons
  | support
  | hand
  | effect
  deriving DecidableEq, Repr

/-- `StaticTarget` from `dgisim/src/event/effect.py`: identifies any
addressable entity. -/
structure StaticTarget where
  pid : Pid
  zone : Zone
  id : Nat
  deriving DecidableEq, Repr

/-- Dynamic (abstract) damage-target selector
(`dgisim/src/event/effect.py`, `DynamicCharacterTarget`). -/
inductive DynamicCharacterTarget where
  | selfSelf
  | selfActive
  | selfOffField
  | selfAll
  | selfAbs
  | oppoActive
  | oppoOffField
  deriving DecidableEq, Repr

/-- Modelled from the spec: the `Character` dataclass
(`dgisim/src/character/character.py` is not shipped in `src/`); spec §3 lists
`id`, `hp : u8`, `max_hp`, `energy`, `max_energy` (the aura and statuses play
no role in the claims below). -/
structure Character where
  id : Nat
  hp : Int
  maxHp : Int
  energy : Int
  maxEnergy : Int
  deriving DecidableEq, Repr

/-- Modelled from the spec: `alive ⇔ hp > 0` (spec §3, invariant 1).  The
shipped `DamageEffect.execute` updates only `hp`; the alive flag is the
derived predicate the spec states. -/
def Character.alive (c : Character) : Bool :=
  0 < c.hp

/-- Modelled from the spec: the ordered `Characters` container with its
active-character pointer (`dgisim/src/character/characters.py` is not shipped
in `src/`). -/
structure Characters where
  chars : List Character
  activeCharacterId : Nat
  deriving DecidableEq, Repr

/-- `Characters.get_active_character`: the character whose id is the active
id, if any. -/
def Characters.getActiveCharacter (cs : Characters) : Option Character :=
  cs.chars.find? (fun c => c.id = cs.activeCharacterId)

/-- Modelled from the spec: `characters.factory().character(c).build()`
replaces the character bearing `c`'s id, leaving every other character
untouched. -/
def Characters.replaceCharacter (cs : Characters) (c : Character) : Characters :=
  { cs with chars := cs.chars.map (fun x => if x.id = c.id then c else x) }

/-- The slice of `GameState` the two effect claims need: both players'
character lists (`dgisim/src/state/game_state.py` is not shipped in `src/`;
modelled from spec §3). -/
structure GameState where
  p1Chars : Characters
  p2Chars : Characters
  deriving DecidableEq, Repr

/-- `game_state.get_player(pid)`'s characters. -/
def GameState.playerChars (gs : GameState) : Pid → Characters
  | .p1 => gs.p1Chars
  | .p2 => gs.p2Chars

/-- `game_state.get_other_player(pid)`'s characters. -/
def GameState.otherChars (gs : GameState) (pid : Pid) : Characters :=
  gs.playerChars pid.other

/-- Write back one player's characters. -/
def GameState.setPlayerChars (gs : GameState) : Pid → Characters → GameState
  | .p1, cs => { gs with p1Chars := cs }
  | .p2, cs => { gs with p2Chars := cs }

/-- Write back the opposing player's characters
(`game_state.factory().other_player(pid, ...)`). -/
def GameState.setOtherChars (gs : GameState) (pid : Pid) (cs : Characters) : GameState :=
  gs.setPlayerChars pid.other cs

/-- `game_state.get_target(target)` restricted to characters: a character is
found iff the zone is `CHARACTER` and a character with the target id exists
(`EnergyRechargeEffect.execute` bails out on every non-character target). -/
def GameState.getCharTarget (gs : GameState) (target : StaticTarget) : Option Character :=
  match target.zone with
  | .character => (gs.playerChars target.pid).chars.find? (fun c => c.id = target.id)
  | _ => none

/-- `DamageEffect` (`dgisim/src/event/effect.py`): source position, dynamic
target, element and damage amount. -/
structure DamageEffect where
  source : StaticTarget
  target : DynamicCharacterTarget
  element : Element
  damage : Int
  deriving DecidableEq, Repr

/-- `DamageEffect.execute` (`dgisim/src/event/effect.py`, lines 151-173).
Only the `OPPO_ACTIVE` branch is implemented by the source (`raise` on every
other dynamic target and on a missing active opponent, modelled as `none`):
the opposing active character's hp becomes `max(0, hp - damage)`. -/
def DamageEffect.execute (eff : DamageEffect) (gs : GameState) : Option GameState :=
  match eff.target with
  | .oppoActive =>
    match (gs.otherChars eff.source.pid).getActiveCharacter with
    | none => none
    | some opponent =>
      let hp := max 0 (opponent.hp - eff.damage)
      let opponent' := { opponent with hp := hp }
      some (gs.setOtherChars eff.source.pid
        ((gs.otherChars eff.source.pid).replaceCharacter opponent'))
  | _ => none

/-- `EnergyRechargeEffect` (`dgisim/src/event/effect.py`, lines 176-196). -/
structure EnergyRechargeEffect where
  target : StaticTarget
  recharge : Int
  deriving DecidableEq, Repr

/-- `EnergyRechargeEffect.execute`: if the target is not a character the
state is returned unchanged; otherwise the target's energy becomes
`min(energy + recharge, max_energy)`, and if that changes nothing the state
is again returned unchanged. -/
def EnergyRechargeEffect.execute (eff : EnergyRechargeEffect) (gs : GameState) : GameState :=
  match gs.getCharTarget eff.target with
  | none => gs
  | some character =>
    let energy := min (character.energy + eff.recharge) character.maxEnergy
    if energy = character.energy then
      gs
    else
      gs.setPlayerChars eff.target.pid
        ((gs.playerChars eff.target.pid).replaceCharacter
          { character with energy := energy })

/-- Preprocessing signals (`src/dgisim/status/enums.py`, `Preprocessables`);
only the damage phases matter for the claims, the rest are representatives
of the "other signal" cases. -/
inductive Preprocessables where
  | dmgElement
  | dmgReaction
  | dmgAmountPlus
  | dmgAmountMinus
  | dmgAmountMul
  | swapCostAny
  | skillCostAny
  | rollChances
  deriving DecidableEq, Repr

/-- Triggering signals (`src/dgisim/effect/enums.py`); only the two signals
`RockPaperScissorsComboPaperStatus` subscribes to matter, `roundEnd` stands
for any other signal. -/
inductive TriggeringSignal where
  | actPreSkill
  | selfSwap
  | roundEnd
  deriving DecidableEq, Repr

/-- `SpecificDamageEffect` as consumed by the status preprocessors
(`src/dgisim/effect/effect.py` is not shipped in `src/`): concrete source
and target positions, element and amount.  The Python event also carries a
`damage_type`; the statuses below consume only the booleans
`damage_type.can_boost()`, modelled as the field `canBoost`. -/
structure SpecificDamageEffect where
  source : StaticTarget
  target : StaticTarget
  element : Element
  damage : Int
  canBoost : Bool
  deriving DecidableEq, Repr

/-- The damage preprocessable event wrapping a `SpecificDamageEffect`
(`src/dgisim/event.py`, `DmgPEvent`). -/
structure DmgPEvent where
  dmg : SpecificDamageEffect
  deriving DecidableEq, Repr

/-- Python's `ceil(a / b)` on positive ints, as used by
`StackedShieldStatus._preprocess`. -/
def ceilDiv (a b : Int) : Int :=
  (a + b - 1) / b

/-- `FixedShieldStatus._preprocess` (`src/dgisim/status/status.py`, lines
945-986).  The status is represented by its `usages`; the class variables
`SHIELD_AMOUNT` and `AUTO_DESTROY` are parameters, and the game-state
dependent checks `self._is_target(...)` and
`self._triggering_condition(...)` are abstracted to their boolean results.
Returns the preprocessed event and `some` new usages, or `none` when the
status removes itself. -/
def FixedShieldStatus.preprocess (SHIELD_AMOUNT : Int) (AUTO_DESTROY : Bool)
    (usages : Int) (isTarget triggeringCondition : Bool)
    (item : DmgPEvent) (signal : Preprocessables) : DmgPEvent × Option Int :=
  if signal = .dmgAmountMinus then
    let dmg := item.dmg
    if dmg.damage > 0 ∧ usages > 0 ∧ dmg.element ≠ .piercing
        ∧ isTarget ∧ triggeringCondition then
      let newDmgAmount := max 0 (dmg.damage - SHIELD_AMOUNT)
      let newItem : DmgPEvent := ⟨{ dmg with damage := newDmgAmount }⟩
      let newUsages := usages - 1
      if AUTO_DESTROY ∧ newUsages = 0 then (newItem, none)
      else (newItem, some newUsages)
    else (item, some usages)
  else (item, some usages)

/-- `StackedShieldStatus._preprocess` (`src/dgisim/status/status.py`, lines
990-1023), under the same representation conventions as
`FixedShieldStatus.preprocess`. -/
def StackedShieldStatus.preprocess (SHIELD_AMOUNT : Int) (usages : Int) (isTarget : Bool)
    (item : DmgPEvent) (signal : Preprocessables) : DmgPEvent × Option Int :=
  if signal = .dmgAmountMinus then
    let dmg := item.dmg
    if dmg.damage > 0 ∧ usages > 0 ∧ dmg.element ≠ .piercing ∧ isTarget then
      let usagesConsumed := min (ceilDiv dmg.damage SHIELD_AMOUNT) usages
      let newDmgAmount := max 0 (dmg.damage - usagesConsumed * SHIELD_AMOUNT)
      let newItem : DmgPEvent := ⟨{ dmg with damage := newDmgAmount }⟩
      let newUsages := usages - usagesConsumed
      if newUsages = 0 then (newItem, none)
      else (newItem, some newUsages)
    else (item, some usages)
  else (item, some usages)

/-- `CrystallizeStatus` (`src/dgisim/status/status.py`, lines 2740-2743): a
combat `StackedShieldStatus` with the inherited `SHIELD_AMOUNT = 1` and
`MAX_USAGES = 2`. -/
def CrystallizeStatus.SHIELD_AMOUNT : Int := 1

/-- `CrystallizeStatus.MAX_USAGES`. -/
def CrystallizeStatus.MAX_USAGES : Int := 2

/-- `CrystallizeStatus._preprocess`, inherited from `StackedShieldStatus`. -/
def CrystallizeStatus.preprocess (usages : Int) (isTarget : Bool)
    (item : DmgPEvent) (signal : Preprocessables) : DmgPEvent × Option Int :=
  StackedShieldStatus.preprocess CrystallizeStatus.SHIELD_AMOUNT usages isTarget item signal

/-- `BIG_INT` (`src/dgisim/helper/quality_of_life.py`), the default
`MAX_USAGES`. -/
def BIG_INT : Int := 0x7fffffff

/-- `_UsageStatus.update = _post_update ∘ _update`
(`src/dgisim/status/status.py`, lines 846-895).  `_update` computes
`max_usages = max(self.usages, other.usages, MAX_USAGES)` and
`new_usages = min(self.usages + other.usages, max_usages)`; `_post_update`
removes the status when `AUTO_DESTROY` and the usages are ≤ 0, and clamps
negative usages to 0 otherwise.  The status is represented by its usages. -/
def UsageStatus.update (MAX_USAGES : Int) (AUTO_DESTROY : Bool)
    (selfUsages otherUsages : Int) : Option Int :=
  let maxUsages := max (max selfUsages otherUsages) MAX_USAGES
  let newUsages := min (selfUsages + otherUsages) maxUsages
  if AUTO_DESTROY ∧ newUsages ≤ 0 then none
  else if newUsages < 0 then some 0
  else some newUsages

/-- `DendroCoreStatus.damage_boost` (`src/dgisim/status/status.py`). -/
def DendroCoreStatus.damage_boost : Int := 2

/-- `DendroCoreStatus._preprocess` (`src/dgisim/status/status.py`, lines
2747-2782).  `activeOf` models
`game_state.get_player(pid).just_get_active_character().id`; the status is
represented by its usages;  `dmg.canBoost` models
`dmg.damage_type.can_boost()`. -/
def DendroCoreStatus.preprocess (statusSourcePid : Pid) (usages : Int)
    (activeOf : Pid → Nat) (item : DmgPEvent) (signal : Preprocessables) :
    DmgPEvent × Option Int :=
  if signal = .dmgAmountPlus then
    let dmg := item.dmg
    let elemCanBoost := dmg.element = .electro ∨ dmg.element = .pyro
    let legalToBoost := statusSourcePid = dmg.source.pid ∧ dmg.canBoost
    let targetIsActive := dmg.target.id = activeOf dmg.target.pid
    if elemCanBoost ∧ legalToBoost ∧ targetIsActive then
      let newItem : DmgPEvent := ⟨{ dmg with damage := dmg.damage + DendroCoreStatus.damage_boost }⟩
      if usages = 1 then (newItem, none)
      else (newItem, some (usages - 1))
    else (item, some usages)
  else (item, some usages)

/-- The `damage_type` flags attached to the damage that
`RockPaperScissorsComboPaperStatus` fires (`DamageType(elemental_skill=True,
status=True)`). -/
structure DamageTypeFlags where
  elementalSkill : Bool
  fromStatus : Bool
  deriving DecidableEq, Repr

/-- The effects a status can emit from `_react_to_signal` that matter here
(`src/dgisim/effect/effect.py`): removal of a character status, and a
referred damage. -/
inductive StatusEffect where
  | removeCharacterStatus (target : StaticTarget)
  | referredDamage (source : StaticTarget) (target : DynamicCharacterTarget)
      (element : Element) (damage : Int) (damageType : DamageTypeFlags)
  deriving DecidableEq, Repr

/-- Is the effect a damage effect? -/
def StatusEffect.isDamage : StatusEffect → Bool
  | .referredDamage _ _ _ _ _ => true
  | _ => false

/-- `RockPaperScissorsComboPaperStatus.DAMAGE`. -/
def RockPaperScissorsComboPaperStatus.DAMAGE : Int := 3

/-- `RockPaperScissorsComboPaperStatus._react_to_signal`
(`src/dgisim/status/status.py`, lines 4457-4487).  The status carries no
fields, so the returned `None | Self` is modelled as `Option Unit`
(`none` = removal request). -/
def RockPaperScissorsComboPaperStatus.reactToSignal (source : StaticTarget)
    (signal : TriggeringSignal) : List StatusEffect × Option Unit :=
  if signal = .actPreSkill then
    ([.removeCharacterStatus source,
      .referredDamage source .oppoActive .electro RockPaperScissorsComboPaperStatus.DAMAGE
        ⟨true, true⟩],
     some ())
  else if signal = .selfSwap then
    ([], none)
  else
    ([], some ())

/-- The `Cards` container (`src/dgisim/card/cards.py`): a dict from card
type to count, modelled as a total function into `Int` (the backing
`HashableDict` does pointwise integer arithmetic with missing keys read as
0, and `remove` explicitly probes for counts ≤ 0).  `α` stands for the set
of card types. -/
abbrev Cards (α : Type) := α → Int

/-- `Cards.num_cards`: the total count. -/
def Cards.num_cards {α : Type} [Fintype α] (c : Cards α) : Int :=
  ∑ x, c x

/-- `Cards.__add__`: pointwise dict addition. -/
def Cards.addCards {α : Type} (a b : Cards α) : Cards α :=
  fun x => a x + b x

/-- `Cards.__sub__`: pointwise dict subtraction. -/
def Cards.subCards {α : Type} (a b : Cards α) : Cards α :=
  fun x => a x - b x

/-- The one-entry dict `{card: n}`. -/
def Cards.single {α : Type} [DecidableEq α] (card : α) (n : Int) : Cards α :=
  fun x => if x = card then n else 0

/-- `Cards.contains` (`src/dgisim/card/cards.py`, lines 124-134): `card` is
found when its own count is positive or at least one `OmniCard` (the hidden
placeholder card, here the designated element `omni`) is present. -/
def Cards.contains {α : Type} [DecidableEq α] (omni : α) (c : Cards α) (card : α) : Bool :=
  c card > 0 || c omni > 0

/-- `Cards.remove` (`src/dgisim/card/cards.py`, lines 136-146): removes one
`card` when its count is positive, otherwise removes one `OmniCard` (the
code's `assert self[OmniCard] > 0` is modelled as `none` on failure). -/
def Cards.remove {α : Type} [DecidableEq α] (omni : α) (c : Cards α) (card : α) :
    Option (Cards α) :=
  if c card ≤ 0 then
    if c omni > 0 then some (c.subCards (Cards.single omni 1)) else none
  else
    some (c.subCards (Cards.single card 1))

/-- Modelled from the spec: the outcome of
`deck.pick_random_cards(n)` = `(left, picked)` (the legacy `Cards` picker is
not shipped in `src/`; per spec §4.2 it removes `min(n, |deck|)` random
cards): `picked` is a sub-multiset of `deck` of that size and `left` is the
rest. -/
def isRandomPick {α : Type} [Fintype α] (deck left picked : Cards α) (n : Int) : Prop :=
  (∀ x, left x + picked x = deck x)
  ∧ (∀ x, 0 ≤ picked x ∧ picked x ≤ deck x)
  ∧ Cards.num_cards picked = min n (Cards.num_cards deck)

/-- `CardSelectPhase._handle_card_drawing`
(`src/dgisim/phase/default/card_select_phase.py`, lines 66-86), given the
outcome `(left, picked)` of the random draw
`deck.pick_random_cards(action.num_cards())`: the new deck is
`left + selected` and the new hand is `hand - selected + picked`
(`action.num_cards()` is the size of `action.selected_cards`). -/
def CardSelectPhase.handleCardDrawing {α : Type} (hand left picked selected : Cards α) :
    Cards α × Cards α :=
  (left.addCards selected, (hand.subCards selected).addCards picked)

/-- A small concrete universe of card types for concrete instances;
`omniCard` stands for `OmniCard`, the hidden-hand placeholder. -/
inductive CardKind where
  | omniCard
  | sweetMadame
  | mondstadtHashBrown
  deriving DecidableEq, Repr, Fintype

/-- The eleven elements in a fixed order (for hashing). -/
def allElements : List Element :=
  [.omni, .pyro, .hydro, .anemo, .electro, .dendro, .cryo, .geo,
   .physical, .piercing, .anyElem]

/-- The seven real (coloured) elements. -/
def realElements : List Element :=
  [.pyro, .hydro, .anemo, .electro, .dendro, .cryo, .geo]

/-- Modelled from the spec: a dice pool (spec §4.1, "a non-negative multiset
keyed by element, including OMNI"; the `dices.py` module is not shipped in
`src/`, only its tests). -/
abbrev Dices := Element → Nat

/-- `Dices.num_dices`: total number of dice. -/
def Dices.num_dices (d : Dices) : Nat :=
  ∑ e, d e

/-- Multiset addition of dice (`Dices.__add__`). -/
def Dices.addDices (a b : Dices) : Dices :=
  fun e => a e + b e

/-- Multiset subtraction of dice (`Dices.__sub__`; counts stay
non-negative). -/
def Dices.subDices (a b : Dices) : Dices :=
  fun e => a e - b e

/-- How many omni dice the elemental-coloured part of a requirement needs on
top of the payment's matching colours. -/
def Dices.elemDeficit (payment req : Dices) : Nat :=
  (realElements.map (fun e => req e - payment e)).sum

/-- Modelled from the spec: `ActualDices.just_satisfy(req)` (spec §4.1): the
payment holds only actual dice (no `ANY`, no damage-only elements), its
total equals the requirement's total, each coloured requirement is covered
by dice of that colour topped up with omni dice, and the `OMNI` requirement
is covered by dice of one shared real colour plus omni dice; the `ANY`
requirement absorbs the rest, which the total equality pins to the exact
count. -/
def Dices.justSatisfy (payment req : Dices) : Prop :=
  payment Element.anyElem = 0
  ∧ payment Element.physical = 0 ∧ payment Element.piercing = 0
  ∧ req Element.physical = 0 ∧ req Element.piercing = 0
  ∧ payment.num_dices = req.num_dices
  ∧ ∃ c ∈ realElements,
      Dices.elemDeficit payment req + (req Element.omni - (payment c - req c))
        ≤ payment Element.omni

/-- A structural hash of a dice pool (`Dices.__hash__` hashes the backing
dict; any function of the counts models it). -/
def Dices.hashDices (d : Dices) : Nat :=
  allElements.foldr (fun e acc => d e + 31 * acc) 0

instance isRandomPick.instDecidable {α : Type} [Fintype α]
    (deck left picked : Cards α) (n : Int) : Decidable (isRandomPick deck left picked n) := by
  unfold isRandomPick
  infer_instance

instance Dices.justSatisfy.instDecidable (payment req : Dices) :
    Decidable (Dices.justSatisfy payment req) := by
  unfold Dices.justSatisfy
  infer_instance

lemma GameState.playerChars_setPlayerChars_same (gs : GameState) (p : Pid) (cs : Characters) :
    (gs.setPlayerChars p cs).playerChars p = cs := by
  cases p <;> rfl

lemma GameState.playerChars_setPlayerChars_other (gs : GameState) (p q : Pid) (cs : Characters)
    (h : q ≠ p) : (gs.setPlayerChars p cs).playerChars q = gs.playerChars q := by
  cases p <;> cases q <;> first | rfl | exact absurd rfl h

lemma Pid.other_ne (p : Pid) : p.other ≠ p := by
  cases p <;> simp [Pid.other]

lemma GameState.getCharTarget_mem {gs : GameState} {t : StaticTarget} {c : Character}
    (h : gs.getCharTarget t = some c) : c ∈ (gs.playerChars t.pid).chars := by
  obtain ⟨p, z, i⟩ := t
  unfold GameState.getCharTarget at h
  cases z
  case character => exact List.mem_of_find?_eq_some h
  all_goals simp_all

/-- C1: executing a `DamageEffect` (aimed at the opposing active character,
the only implemented dynamic target) sets that character's HP to
`max(0, hp - damage)`, so HP never drops below 0 and, for non-negative
damage, never exceeds `max_hp`; and the spec-derived alive flag holds iff
the resulting HP is positive — in particular it is `false` exactly when HP
hits 0. -/
theorem damageEffect_execute_spec (gs : GameState) (src : StaticTarget) (el : Element)
    (dmg : Int) (c : Character)
    (hc : (gs.otherChars src.pid).getActiveCharacter = some c)
    (hd : 0 ≤ dmg) (h0 : 0 ≤ c.hp) (h1 : c.hp ≤ c.maxHp) :
    DamageEffect.execute ⟨src, .oppoActive, el, dmg⟩ gs
      = some (gs.setOtherChars src.pid ((gs.otherChars src.pid).replaceCharacter
          { c with hp := max 0 (c.hp - dmg) }))
    ∧ 0 ≤ max 0 (c.hp - dmg)
    ∧ max 0 (c.hp - dmg) ≤ c.maxHp
    ∧ (Character.alive { c with hp := max 0 (c.hp - dmg) } = true ↔ 0 < max 0 (c.hp - dmg))
    ∧ (max 0 (c.hp - dmg) = 0 → Character.alive { c with hp := max 0 (c.hp - dmg) } = false) := by
  refine ⟨?_, ?_, ?_, ?_, ?_⟩
  · simp [DamageEffect.execute, hc]
  · omega
  · omega
  · simp [Character.alive]
  · intro h
    simp [Character.alive, h]

/-- C1 witness: a concrete two-player state where P1 deals 3 damage to P2's
active character at 2 HP, leaving it at 0 HP and dead. -/
theorem damageEffect_execute_spec_witness :
    ((⟨⟨[⟨1, 10, 10, 0, 2⟩], 1⟩, ⟨[⟨1, 2, 10, 0, 2⟩], 1⟩⟩ :
        GameState).otherChars (⟨Pid.p1, Zone.character, 1⟩ : StaticTarget).pid).getActiveCharacter
      = some ⟨1, 2, 10, 0, 2⟩
    ∧ ((0 : Int) ≤ 3 ∧ (0 : Int) ≤ 2 ∧ (2 : Int) ≤ 10)
    ∧ (DamageEffect.execute ⟨⟨Pid.p1, Zone.character, 1⟩, .oppoActive, Element.pyro, 3⟩
          ⟨⟨[⟨1, 10, 10, 0, 2⟩], 1⟩, ⟨[⟨1, 2, 10, 0, 2⟩], 1⟩⟩
        = some ((⟨⟨[⟨1, 10, 10, 0, 2⟩], 1⟩, ⟨[⟨1, 2, 10, 0, 2⟩], 1⟩⟩ :
            GameState).setOtherChars Pid.p1
            (((⟨⟨[⟨1, 10, 10, 0, 2⟩], 1⟩, ⟨[⟨1, 2, 10, 0, 2⟩], 1⟩⟩ :
              GameState).otherChars Pid.p1).replaceCharacter
              { (⟨1, 2, 10, 0, 2⟩ : Character) with hp := max 0 ((2 : Int) - 3) }))
      ∧ 0 ≤ max 0 ((2 : Int) - 3)
      ∧ max 0 ((2 : Int) - 3) ≤ (10 : Int)
      ∧ (Character.alive { (⟨1, 2, 10, 0, 2⟩ : Character) with hp := max 0 ((2 : Int) - 3) } = true
          ↔ 0 < max 0 ((2 : Int) - 3))
      ∧ (max 0 ((2 : Int) - 3) = 0 →
          Character.alive { (⟨1, 2, 10, 0, 2⟩ : Character) with hp := max 0 ((2 : Int) - 3) }
            = false)) :=
  ⟨by decide, ⟨by decide, by decide, by decide⟩,
    damageEffect_execute_spec
      ⟨⟨[⟨1, 10, 10, 0, 2⟩], 1⟩, ⟨[⟨1, 2, 10, 0, 2⟩], 1⟩⟩
      ⟨Pid.p1, Zone.character, 1⟩ Element.pyro 3 ⟨1, 2, 10, 0, 2⟩
      (by decide) (by decide) (by decide) (by decide)⟩

/-- C8: executing an `EnergyRechargeEffect` preserves
`0 ≤ energy ≤ max_energy` for every character; the target character's energy
becomes `min(energy + recharge, max_energy)`; if the target is not a
character, or the energy would not change, the state is returned unchanged;
and no other character (different id, or the other player) is modified. -/
theorem energyRecharge_execute_spec (gs : GameState) (eff : EnergyRechargeEffect)
    (hr : 0 ≤ eff.recharge)
    (hinv : ∀ p : Pid, ∀ x ∈ (gs.playerChars p).chars, 0 ≤ x.energy ∧ x.energy ≤ x.maxEnergy) :
    (gs.getCharTarget eff.target = none → eff.execute gs = gs)
    ∧ (∀ c, gs.getCharTarget eff.target = some c →
        (min (c.energy + eff.recharge) c.maxEnergy = c.energy → eff.execute gs = gs)
        ∧ (min (c.energy + eff.recharge) c.maxEnergy ≠ c.energy →
            ((eff.execute gs).playerChars eff.target.pid).chars
              = (gs.playerChars eff.target.pid).chars.map
                  (fun x => if x.id = c.id then
                    { c with energy := min (c.energy + eff.recharge) c.maxEnergy } else x)
            ∧ (eff.execute gs).playerChars eff.target.pid.other
                = gs.playerChars eff.target.pid.other
            ∧ ∀ x ∈ (gs.playerChars eff.target.pid).chars, x.id ≠ c.id →
                x ∈ ((eff.execute gs).playerChars eff.target.pid).chars))
    ∧ (∀ p : Pid, ∀ x ∈ ((eff.execute gs).playerChars p).chars,
        0 ≤ x.energy ∧ x.energy ≤ x.maxEnergy) := by
  refine ⟨?_, ?_, ?_⟩
  · intro h
    simp [EnergyRechargeEffect.execute, h]
  · intro c hc
    constructor
    · intro h
      simp [EnergyRechargeEffect.execute, hc, h]
    · intro h
      have hexec : eff.execute gs
          = gs.setPlayerChars eff.target.pid
              ((gs.playerChars eff.target.pid).replaceCharacter
                { c with energy := min (c.energy + eff.recharge) c.maxEnergy }) := by
        simp [EnergyRechargeEffect.execute, hc, h]
      refine ⟨?_, ?_, ?_⟩
      · rw [hexec, GameState.playerChars_setPlayerChars_same]
        rfl
      · rw [hexec, GameState.playerChars_setPlayerChars_other _ _ _ _ (Pid.other_ne _)]
      · intro x hx hid
        rw [hexec, GameState.playerChars_setPlayerChars_same]
        unfold Characters.replaceCharacter
        simp only [List.mem_map]
        exact ⟨x, hx, by simp [hid]⟩
  · intro p x hx
    unfold EnergyRechargeEffect.execute at hx
    cases hc : gs.getCharTarget eff.target with
    | none =>
      rw [hc] at hx
      exact hinv p x hx
    | some c =>
      rw [hc] at hx
      dsimp only at hx
      by_cases h : min (c.energy + eff.recharge) c.maxEnergy = c.energy
      · rw [if_pos h] at hx
        exact hinv p x hx
      · rw [if_neg h] at hx
        by_cases hp : p = eff.target.pid
        · subst hp
          rw [GameState.playerChars_setPlayerChars_same] at hx
          unfold Characters.replaceCharacter at hx
          simp only [List.mem_map] at hx
          obtain ⟨y, hy, hyx⟩ := hx
          by_cases hid : y.id = ({ c with energy := min (c.energy + eff.recharge) c.maxEnergy }
              : Character).id
          · rw [if_pos hid] at hyx
            subst hyx
            have hcinv := hinv _ c (GameState.getCharTarget_mem hc)
            simp only
            constructor
            · have : 0 ≤ c.energy + eff.recharge := by omega
              omega
            · omega
          · rw [if_neg hid] at hyx
            subst hyx
            exact hinv _ y hy
        · rw [GameState.playerChars_setPlayerChars_other _ _ _ _ hp] at hx
          exact hinv p x hx

lemma ceilDiv_spec (a b : Int) (hb : 0 < b) :
    b * (ceilDiv a b - 1) < a ∧ a ≤ b * ceilDiv a b := by
  have h1 := Int.ediv_add_emod (a + b - 1) b
  have h2 := Int.emod_nonneg (a + b - 1) (by omega : b ≠ 0)
  have h3 := Int.emod_lt_of_pos (a + b - 1) hb
  have e : b * (ceilDiv a b - 1) = b * ceilDiv a b - b := by ring
  rw [e]
  unfold ceilDiv
  generalize (a + b - 1) % b = r at *
  generalize b * ((a + b - 1) / b) = t at *
  omega

lemma ceilDiv_pos (a b : Int) (ha : 0 < a) (hb : 0 < b) : 0 < ceilDiv a b := by
  rcases ceilDiv_spec a b hb with ⟨-, h2⟩
  nlinarith

/-- C2: a `StackedShieldStatus` with `u > 0` stacks preprocessing a
`DMG_AMOUNT_MINUS` event with positive, non-piercing damage aimed at its
owner consumes `min(ceil(d / SHIELD_AMOUNT), u)` stacks, reduces the damage
to `max(0, d - consumed * SHIELD_AMOUNT)`, and removes itself exactly when
all `u` stacks are consumed. -/
theorem stackedShield_preprocess_spec (s u : Int) (item : DmgPEvent)
    (hs : 0 < s) (hu : 0 < u) (hd : 0 < item.dmg.damage)
    (he : item.dmg.element ≠ Element.piercing) :
    StackedShieldStatus.preprocess s u true item .dmgAmountMinus
      = (⟨{ item.dmg with damage := max 0 (item.dmg.damage - min (ceilDiv item.dmg.damage s) u * s) }⟩,
         if min (ceilDiv item.dmg.damage s) u = u then none
         else some (u - min (ceilDiv item.dmg.damage s) u))
    ∧ 0 < min (ceilDiv item.dmg.damage s) u
    ∧ min (ceilDiv item.dmg.damage s) u ≤ u
    ∧ ((StackedShieldStatus.preprocess s u true item .dmgAmountMinus).2 = none
        ↔ min (ceilDiv item.dmg.damage s) u = u) := by
  have hpos : 0 < ceilDiv item.dmg.damage s := ceilDiv_pos _ _ hd hs
  have hmain : StackedShieldStatus.preprocess s u true item .dmgAmountMinus
      = (⟨{ item.dmg with damage := max 0 (item.dmg.damage - min (ceilDiv item.dmg.damage s) u * s) }⟩,
         if min (ceilDiv item.dmg.damage s) u = u then none
         else some (u - min (ceilDiv item.dmg.damage s) u)) := by
    unfold StackedShieldStatus.preprocess
    rw [if_pos rfl, if_pos ⟨hd, hu, he, rfl⟩]
    dsimp only
    split_ifs with h1 h2 <;> first | rfl | (exfalso; omega)
  refine ⟨hmain, lt_min hpos hu, min_le_right _ _, ?_⟩
  rw [hmain]
  split_ifs with h <;> simp [h]

/-- C2 witness: `CrystallizeStatus` with 2 stacks (`SHIELD_AMOUNT = 1`) hit
by 3 Anemo damage absorbs 2, lets 1 through, and is removed. -/
theorem stackedShield_preprocess_spec_witness :
    ((0 : Int) < CrystallizeStatus.SHIELD_AMOUNT ∧ (0 : Int) < 2
      ∧ (0 : Int) < (⟨⟨⟨Pid.p2, Zone.character, 1⟩, ⟨Pid.p1, Zone.character, 1⟩,
            Element.anemo, 3, true⟩⟩ : DmgPEvent).dmg.damage
      ∧ (⟨⟨⟨Pid.p2, Zone.character, 1⟩, ⟨Pid.p1, Zone.character, 1⟩,
            Element.anemo, 3, true⟩⟩ : DmgPEvent).dmg.element ≠ Element.piercing)
    ∧ (StackedShieldStatus.preprocess CrystallizeStatus.SHIELD_AMOUNT 2 true
          ⟨⟨⟨Pid.p2, Zone.character, 1⟩, ⟨Pid.p1, Zone.character, 1⟩,
            Element.anemo, 3, true⟩⟩ .dmgAmountMinus
        = (⟨⟨⟨Pid.p2, Zone.character, 1⟩, ⟨Pid.p1, Zone.character, 1⟩, Element.anemo,
              max 0 (3 - min (ceilDiv 3 CrystallizeStatus.SHIELD_AMOUNT) 2
                * CrystallizeStatus.SHIELD_AMOUNT), true⟩⟩,
           if min (ceilDiv 3 CrystallizeStatus.SHIELD_AMOUNT) 2 = 2 then none
           else some (2 - min (ceilDiv 3 CrystallizeStatus.SHIELD_AMOUNT) 2))
      ∧ 0 < min (ceilDiv 3 CrystallizeStatus.SHIELD_AMOUNT) 2
      ∧ min (ceilDiv 3 CrystallizeStatus.SHIELD_AMOUNT) 2 ≤ 2
      ∧ ((StackedShieldStatus.preprocess CrystallizeStatus.SHIELD_AMOUNT 2 true
            ⟨⟨⟨Pid.p2, Zone.character, 1⟩, ⟨Pid.p1, Zone.character, 1⟩,
              Element.anemo, 3, true⟩⟩ .dmgAmountMinus).2 = none
          ↔ min (ceilDiv 3 CrystallizeStatus.SHIELD_AMOUNT) 2 = 2)) :=
  ⟨⟨by decide, by decide, by decide, by decide⟩,
    stackedShield_preprocess_spec CrystallizeStatus.SHIELD_AMOUNT 2
      ⟨⟨⟨Pid.p2, Zone.character, 1⟩, ⟨Pid.p1, Zone.character, 1⟩, Element.anemo, 3, true⟩⟩
      (by decide) (by decide) (by decide) (by decide)⟩

/-- C6: a `FixedShieldStatus` with `u > 0` usages and `AUTO_DESTROY`
preprocessing a `DMG_AMOUNT_MINUS` event with positive, non-piercing damage
aimed at its owner and meeting its triggering condition reduces the damage
to `max(0, d - SHIELD_AMOUNT)` — however large `d` is — consumes exactly one
usage, and removes itself exactly when the usages reach 0. -/
theorem fixedShield_preprocess_spec (s u : Int) (item : DmgPEvent)
    (hu : 0 < u) (hd : 0 < item.dmg.damage)
    (he : item.dmg.element ≠ Element.piercing) :
    FixedShieldStatus.preprocess s true u true true item .dmgAmountMinus
      = (⟨{ item.dmg with damage := max 0 (item.dmg.damage - s) }⟩,
         if u - 1 = 0 then none else some (u - 1))
    ∧ ((FixedShieldStatus.preprocess s true u true true item .dmgAmountMinus).2 = none
        ↔ u - 1 = 0) := by
  have hmain : FixedShieldStatus.preprocess s true u true true item .dmgAmountMinus
      = (⟨{ item.dmg with damage := max 0 (item.dmg.damage - s) }⟩,
         if u - 1 = 0 then none else some (u - 1)) := by
    unfold FixedShieldStatus.preprocess
    rw [if_pos rfl, if_pos ⟨hd, hu, he, rfl, rfl⟩]
    dsimp only
    simp only [eq_self_iff_true, true_and]
    split_ifs <;> rfl
  refine ⟨hmain, ?_⟩
  rw [hmain]
  split_ifs with h <;> simp [h]

/-- C6 witness: a 1-point fixed shield with 2 usages hit by 5 Pyro damage
lets 4 through, consumes a single usage, and stays. -/
theorem fixedShield_preprocess_spec_witness :
    ((0 : Int) < 2
      ∧ (0 : Int) < (⟨⟨⟨Pid.p2, Zone.character, 1⟩, ⟨Pid.p1, Zone.character, 1⟩,
            Element.pyro, 5, true⟩⟩ : DmgPEvent).dmg.damage
      ∧ (⟨⟨⟨Pid.p2, Zone.character, 1⟩, ⟨Pid.p1, Zone.character, 1⟩,
            Element.pyro, 5, true⟩⟩ : DmgPEvent).dmg.element ≠ Element.piercing)
    ∧ (FixedShieldStatus.preprocess 1 true 2 true true
          ⟨⟨⟨Pid.p2, Zone.character, 1⟩, ⟨Pid.p1, Zone.character, 1⟩,
            Element.pyro, 5, true⟩⟩ .dmgAmountMinus
        = (⟨⟨⟨Pid.p2, Zone.character, 1⟩, ⟨Pid.p1, Zone.character, 1⟩, Element.pyro,
              max 0 (5 - 1), true⟩⟩,
           if (2 : Int) - 1 = 0 then none else some ((2 : Int) - 1))
      ∧ ((FixedShieldStatus.preprocess 1 true 2 true true
            ⟨⟨⟨Pid.p2, Zone.character, 1⟩, ⟨Pid.p1, Zone.character, 1⟩,
              Element.pyro, 5, true⟩⟩ .dmgAmountMinus).2 = none
          ↔ (2 : Int) - 1 = 0)) :=
  ⟨⟨by decide, by decide, by decide⟩,
    fixedShield_preprocess_spec 1 2
      ⟨⟨⟨Pid.p2, Zone.character, 1⟩, ⟨Pid.p1, Zone.character, 1⟩, Element.pyro, 5, true⟩⟩
      (by decide) (by decide) (by decide)⟩

/-- C3 counterexample: a `_UsageStatus` whose current usages (3) already
exceed `MAX_USAGES = 2` merged with an incoming status of 1 usage keeps 3
usages, not `min(3 + 1, MAX_USAGES) = 2` as the claim states — `_update`
caps at `max(self.usages, other.usages, MAX_USAGES)`, not at `MAX_USAGES`. -/
theorem usageStatus_update_counterexample :
    UsageStatus.update 2 true 3 1 = some 3
    ∧ UsageStatus.update 2 true 3 1 ≠ some (min (3 + 1) 2) := by
  constructor
  · rfl
  · decide

/-- C3 (amended): for a `_UsageStatus` whose own and incoming usages do not
exceed `MAX_USAGES`, `update` caps the summed usages at `MAX_USAGES`, and
(with `AUTO_DESTROY`) removes the status — returns `none` — exactly when the
resulting usages are ≤ 0. -/
theorem usageStatus_update_spec (M s o : Int) (hs : s ≤ M) (ho : o ≤ M) :
    UsageStatus.update M true s o
      = if min (s + o) M ≤ 0 then none else some (min (s + o) M) := by
  unfold UsageStatus.update
  have hmax : max (max s o) M = M := by omega
  rw [hmax]
  simp only [eq_self_iff_true, true_and]
  split_ifs with h1 h2 <;> first | rfl | (exfalso; omega)

/-- C3 witness: merging 2 + 2 usages under `MAX_USAGES = 3` caps at 3. -/
theorem usageStatus_update_spec_witness :
    ((2 : Int) ≤ 3 ∧ (2 : Int) ≤ 3)
    ∧ UsageStatus.update 3 true 2 2
        = if min ((2 : Int) + 2) 3 ≤ 0 then none else some (min ((2 : Int) + 2) 3) :=
  ⟨⟨by decide, by decide⟩, usageStatus_update_spec 3 2 2 (by decide) (by decide)⟩

/-- C5 counterexample: a `DendroCoreStatus` (owner P1, usages 1) sees 2
Electro damage from P1 aimed at P2's active character — every condition the
claim lists — yet, because the damage type is not boostable
(`damage_type.can_boost()` is false, e.g. summoned-creature piercing-class
damage), the damage passes through unchanged and the status stays, where the
claim demands `+2` and removal. -/
theorem dendroCore_preprocess_counterexample :
    DendroCoreStatus.preprocess Pid.p1 1 (fun _ => 1)
        ⟨⟨⟨Pid.p1, Zone.character, 1⟩, ⟨Pid.p2, Zone.character, 1⟩, Element.electro, 2, false⟩⟩
        .dmgAmountPlus
      = (⟨⟨⟨Pid.p1, Zone.character, 1⟩, ⟨Pid.p2, Zone.character, 1⟩,
          Element.electro, 2, false⟩⟩, some 1)
    ∧ (DendroCoreStatus.preprocess Pid.p1 1 (fun _ => 1)
        ⟨⟨⟨Pid.p1, Zone.character, 1⟩, ⟨Pid.p2, Zone.character, 1⟩, Element.electro, 2, false⟩⟩
        .dmgAmountPlus).1.dmg.damage ≠ 2 + DendroCoreStatus.damage_boost
    ∧ (DendroCoreStatus.preprocess Pid.p1 1 (fun _ => 1)
        ⟨⟨⟨Pid.p1, Zone.character, 1⟩, ⟨Pid.p2, Zone.character, 1⟩, Element.electro, 2, false⟩⟩
        .dmgAmountPlus).2 ≠ none := by
  refine ⟨rfl, by decide, by decide⟩

/-- C5 (amended): a `DendroCoreStatus` with usages 1 preprocessing a
`DMG_AMOUNT_PLUS` event adds exactly 2 to the damage and removes itself when
the element is Electro or Pyro, the damage source belongs to the owning
side, the damage type is boostable, and the target is the targeted player's
active character; otherwise — and on every other signal — the event passes
through unchanged and the status stays. -/
theorem dendroCore_preprocess_spec (ownerPid : Pid) (activeOf : Pid → Nat) (item : DmgPEvent) :
    (((item.dmg.element = Element.electro ∨ item.dmg.element = Element.pyro)
        ∧ (ownerPid = item.dmg.source.pid ∧ item.dmg.canBoost = true)
        ∧ item.dmg.target.id = activeOf item.dmg.target.pid) →
      DendroCoreStatus.preprocess ownerPid 1 activeOf item .dmgAmountPlus
        = (⟨{ item.dmg with damage := item.dmg.damage + DendroCoreStatus.damage_boost }⟩, none))
    ∧ (¬ ((item.dmg.element = Element.electro ∨ item.dmg.element = Element.pyro)
        ∧ (ownerPid = item.dmg.source.pid ∧ item.dmg.canBoost = true)
        ∧ item.dmg.target.id = activeOf item.dmg.target.pid) →
      DendroCoreStatus.preprocess ownerPid 1 activeOf item .dmgAmountPlus = (item, some 1))
    ∧ (∀ sig, sig ≠ Preprocessables.dmgAmountPlus →
      DendroCoreStatus.preprocess ownerPid 1 activeOf item sig = (item, some 1)) := by
  refine ⟨?_, ?_, ?_⟩
  · intro h
    unfold DendroCoreStatus.preprocess
    rw [if_pos rfl, if_pos h, if_pos rfl]
  · intro h
    unfold DendroCoreStatus.preprocess
    rw [if_pos rfl, if_neg h]
  · intro sig hsig
    unfold DendroCoreStatus.preprocess
    rw [if_neg hsig]

/-- C5 witness: the spec scenario — P1's DendroCore boosts 2 Electro damage
from P1 to P2's active character to 4 and is removed. -/
theorem dendroCore_preprocess_spec_witness :
    ((Element.electro = Element.electro ∨ Element.electro = Element.pyro)
      ∧ (Pid.p1 = Pid.p1 ∧ (true : Bool) = true)
      ∧ (1 : Nat) = 1)
    ∧ DendroCoreStatus.preprocess Pid.p1 1 (fun _ => 1)
        ⟨⟨⟨Pid.p1, Zone.character, 1⟩, ⟨Pid.p2, Zone.character, 1⟩, Element.electro, 2, true⟩⟩
        .dmgAmountPlus
      = (⟨⟨⟨Pid.p1, Zone.character, 1⟩, ⟨Pid.p2, Zone.character, 1⟩, Element.electro,
          2 + DendroCoreStatus.damage_boost, true⟩⟩, none) :=
  ⟨⟨Or.inl rfl, ⟨rfl, rfl⟩, rfl⟩,
    (dendroCore_preprocess_spec Pid.p1 (fun _ => 1)
      ⟨⟨⟨Pid.p1, Zone.character, 1⟩, ⟨Pid.p2, Zone.character, 1⟩,
        Element.electro, 2, true⟩⟩).1 (by decide)⟩

/-- C7: `RockPaperScissorsComboPaperStatus._react_to_signal` on `SELF_SWAP`
requests its own removal and emits no effects (in particular no damage); on
`ACT_PRE_SKILL` it emits the removal of itself followed by a 3-point Electro
referred damage at the opposing active character. -/
theorem rpsComboPaper_reactToSignal_spec (source : StaticTarget) :
    RockPaperScissorsComboPaperStatus.reactToSignal source .selfSwap = ([], none)
    ∧ ((RockPaperScissorsComboPaperStatus.reactToSignal source .selfSwap).1.all
        (fun e => !e.isDamage)) = true
    ∧ RockPaperScissorsComboPaperStatus.reactToSignal source .actPreSkill
        = ([StatusEffect.removeCharacterStatus source,
            StatusEffect.referredDamage source .oppoActive Element.electro
              RockPaperScissorsComboPaperStatus.DAMAGE ⟨true, true⟩], some ()) :=
  ⟨rfl, rfl, rfl⟩

/-- C8 witness: recharging P1's character (energy 0, cap 2) by 1 keeps
every character's energy within `[0, max_energy]`. -/
theorem energyRecharge_execute_spec_witness :
    ((0 : Int) ≤ (⟨⟨Pid.p1, Zone.character, 1⟩, 1⟩ : EnergyRechargeEffect).recharge
      ∧ ∀ p : Pid, ∀ x ∈ ((⟨⟨[⟨1, 5, 10, 0, 2⟩], 1⟩, ⟨[⟨1, 8, 10, 1, 3⟩], 1⟩⟩ :
          GameState).playerChars p).chars, 0 ≤ x.energy ∧ x.energy ≤ x.maxEnergy)
    ∧ ∀ p : Pid, ∀ x ∈ ((EnergyRechargeEffect.execute ⟨⟨Pid.p1, Zone.character, 1⟩, 1⟩
          ⟨⟨[⟨1, 5, 10, 0, 2⟩], 1⟩, ⟨[⟨1, 8, 10, 1, 3⟩], 1⟩⟩).playerChars p).chars,
        0 ≤ x.energy ∧ x.energy ≤ x.maxEnergy :=
  ⟨⟨by decide, by decide⟩,
    (energyRecharge_execute_spec ⟨⟨[⟨1, 5, 10, 0, 2⟩], 1⟩, ⟨[⟨1, 8, 10, 1, 3⟩], 1⟩⟩
      ⟨⟨Pid.p1, Zone.character, 1⟩, 1⟩ (by decide) (by decide)).2.2⟩

lemma Cards.num_cards_addCards {α : Type} [Fintype α] (a b : Cards α) :
    (a.addCards b).num_cards = a.num_cards + b.num_cards := by
  unfold Cards.num_cards Cards.addCards
  exact Finset.sum_add_distrib

lemma Cards.num_cards_subCards {α : Type} [Fintype α] (a b : Cards α) :
    (a.subCards b).num_cards = a.num_cards - b.num_cards := by
  unfold Cards.num_cards Cards.subCards
  exact Finset.sum_sub_distrib

/-- C4: handling a `CardSelectAction` that selects a sub-multiset `selected`
of the hand, with the deck at least as large, keeps the hand size, the deck
size, and the combined hand-plus-deck multiset unchanged. -/
theorem cardSelect_handleCardDrawing_spec {α : Type} [Fintype α]
    (hand deck left picked selected : Cards α)
    (_hsel : ∀ x, 0 ≤ selected x ∧ selected x ≤ hand x)
    (hn : Cards.num_cards selected ≤ Cards.num_cards deck)
    (hpick : isRandomPick deck left picked (Cards.num_cards selected)) :
    (CardSelectPhase.handleCardDrawing hand left picked selected).2.num_cards
      = hand.num_cards
    ∧ (CardSelectPhase.handleCardDrawing hand left picked selected).1.num_cards
      = deck.num_cards
    ∧ ∀ x, (CardSelectPhase.handleCardDrawing hand left picked selected).1 x
          + (CardSelectPhase.handleCardDrawing hand left picked selected).2 x
        = deck x + hand x := by
  obtain ⟨hlp, hbnd, hsz⟩ := hpick
  have hszp : picked.num_cards = selected.num_cards := by
    rw [hsz, min_eq_left hn]
  have hsum : left.num_cards + picked.num_cards = deck.num_cards := by
    have h2 : left.addCards picked = deck := funext hlp
    have h := Cards.num_cards_addCards left picked
    rw [h2] at h
    omega
  refine ⟨?_, ?_, ?_⟩
  · show ((hand.subCards selected).addCards picked).num_cards = hand.num_cards
    rw [Cards.num_cards_addCards, Cards.num_cards_subCards]
    omega
  · show (left.addCards selected).num_cards = deck.num_cards
    rw [Cards.num_cards_addCards]
    omega
  · intro x
    have h := hlp x
    show (left x + selected x) + (hand x - selected x + picked x) = deck x + hand x
    omega

/-- C4 witness: redrawing one card — hand `{sweet: 2, hash: 1}` returns one
`sweet` to the deck `{omni: 1, hash: 1}` and draws one `hash`; sizes and the
combined multiset are unchanged. -/
theorem cardSelect_handleCardDrawing_spec_witness :
    ((∀ x, 0 ≤ (fun y => match y with
        | CardKind.sweetMadame => (1 : Int) | _ => 0) x
      ∧ (fun y => match y with
        | CardKind.sweetMadame => (1 : Int) | _ => 0) x
        ≤ (fun y => match y with
        | CardKind.sweetMadame => (2 : Int) | CardKind.mondstadtHashBrown => 1 | _ => 0) x)
    ∧ Cards.num_cards (fun y => match y with
        | CardKind.sweetMadame => (1 : Int) | _ => 0)
      ≤ Cards.num_cards (fun y => match y with
        | CardKind.omniCard => (1 : Int) | CardKind.mondstadtHashBrown => 1 | _ => 0)
    ∧ isRandomPick
        (fun y => match y with
          | CardKind.omniCard => (1 : Int) | CardKind.mondstadtHashBrown => 1 | _ => 0)
        (fun y => match y with | CardKind.omniCard => (1 : Int) | _ => 0)
        (fun y => match y with | CardKind.mondstadtHashBrown => (1 : Int) | _ => 0)
        (Cards.num_cards (fun y => match y with
          | CardKind.sweetMadame => (1 : Int) | _ => 0)))
    ∧ ((CardSelectPhase.handleCardDrawing
          (fun y => match y with
            | CardKind.sweetMadame => (2 : Int) | CardKind.mondstadtHashBrown => 1 | _ => 0)
          (fun y => match y with | CardKind.omniCard => (1 : Int) | _ => 0)
          (fun y => match y with | CardKind.mondstadtHashBrown => (1 : Int) | _ => 0)
          (fun y => match y with | CardKind.sweetMadame => (1 : Int) | _ => 0)).2.num_cards
        = Cards.num_cards (fun y => match y with
            | CardKind.sweetMadame => (2 : Int) | CardKind.mondstadtHashBrown => 1 | _ => 0)
      ∧ (CardSelectPhase.handleCardDrawing
          (fun y => match y with
            | CardKind.sweetMadame => (2 : Int) | CardKind.mondstadtHashBrown => 1 | _ => 0)
          (fun y => match y with | CardKind.omniCard => (1 : Int) | _ => 0)
          (fun y => match y with | CardKind.mondstadtHashBrown => (1 : Int) | _ => 0)
          (fun y => match y with | CardKind.sweetMadame => (1 : Int) | _ => 0)).1.num_cards
        = Cards.num_cards (fun y => match y with
            | CardKind.omniCard => (1 : Int) | CardKind.mondstadtHashBrown => 1 | _ => 0)
      ∧ ∀ x, (CardSelectPhase.handleCardDrawing
          (fun y => match y with
            | CardKind.sweetMadame => (2 : Int) | CardKind.mondstadtHashBrown => 1 | _ => 0)
          (fun y => match y with | CardKind.omniCard => (1 : Int) | _ => 0)
          (fun y => match y with | CardKind.mondstadtHashBrown => (1 : Int) | _ => 0)
          (fun y => match y with | CardKind.sweetMadame => (1 : Int) | _ => 0)).1 x
          + (CardSelectPhase.handleCardDrawing
          (fun y => match y with
            | CardKind.sweetMadame => (2 : Int) | CardKind.mondstadtHashBrown => 1 | _ => 0)
          (fun y => match y with | CardKind.omniCard => (1 : Int) | _ => 0)
          (fun y => match y with | CardKind.mondstadtHashBrown => (1 : Int) | _ => 0)
          (fun y => match y with | CardKind.sweetMadame => (1 : Int) | _ => 0)).2 x
        = (fun y => match y with
            | CardKind.omniCard => (1 : Int) | CardKind.mondstadtHashBrown => 1 | _ => 0) x
          + (fun y => match y with
            | CardKind.sweetMadame => (2 : Int) | CardKind.mondstadtHashBrown => 1 | _ => 0) x) :=
  ⟨⟨by decide, by decide, by decide⟩,
    cardSelect_handleCardDrawing_spec
      (fun y => match y with
        | CardKind.sweetMadame => (2 : Int) | CardKind.mondstadtHashBrown => 1 | _ => 0)
      (fun y => match y with
        | CardKind.omniCard => (1 : Int) | CardKind.mondstadtHashBrown => 1 | _ => 0)
      (fun y => match y with | CardKind.omniCard => (1 : Int) | _ => 0)
      (fun y => match y with | CardKind.mondstadtHashBrown => (1 : Int) | _ => 0)
      (fun y => match y with | CardKind.sweetMadame => (1 : Int) | _ => 0)
      (by decide) (by decide) (by decide)⟩

/-- C10: a hand holding an `OmniCard` `contains` any card type even at count
0; `remove` removes one copy of the card when its count is positive and one
`OmniCard` otherwise, so removing a card the hand `contains` always
succeeds. -/
theorem cards_contains_remove_spec {α : Type} [DecidableEq α] (omni : α) (c : Cards α)
    (k : α) :
    (0 < c omni → Cards.contains omni c k = true)
    ∧ (0 < c k → Cards.remove omni c k = some (c.subCards (Cards.single k 1)))
    ∧ (c k ≤ 0 → 0 < c omni →
        Cards.remove omni c k = some (c.subCards (Cards.single omni 1)))
    ∧ (Cards.contains omni c k = true → (Cards.remove omni c k).isSome = true) := by
  refine ⟨?_, ?_, ?_, ?_⟩
  · intro h
    simp only [Cards.contains, Bool.or_eq_true, decide_eq_true_eq]
    omega
  · intro h
    unfold Cards.remove
    rw [if_neg (by omega)]
  · intro h1 h2
    unfold Cards.remove
    rw [if_pos h1, if_pos h2]
  · intro h
    simp only [Cards.contains, Bool.or_eq_true, decide_eq_true_eq] at h
    unfold Cards.remove
    split_ifs with h1 h2
    · rfl
    · exfalso
      rcases h with h | h <;> omega
    · rfl

/-- C10 witness: a hand `{omni: 1, hash: 2}` contains `sweetMadame` (count
0) and removing it spends the `OmniCard`. -/
theorem cards_contains_remove_spec_witness :
    Cards.contains CardKind.omniCard
      (fun y => match y with
        | CardKind.omniCard => (1 : Int) | CardKind.mondstadtHashBrown => 2 | _ => 0)
      CardKind.sweetMadame = true
    ∧ Cards.remove CardKind.omniCard
        (fun y => match y with
          | CardKind.omniCard => (1 : Int) | CardKind.mondstadtHashBrown => 2 | _ => 0)
        CardKind.sweetMadame
      = some (Cards.subCards
          (fun y => match y with
            | CardKind.omniCard => (1 : Int) | CardKind.mondstadtHashBrown => 2 | _ => 0)
          (Cards.single CardKind.omniCard 1)) :=
  ⟨(cards_contains_remove_spec CardKind.omniCard
      (fun y => match y with
        | CardKind.omniCard => (1 : Int) | CardKind.mondstadtHashBrown => 2 | _ => 0)
      CardKind.sweetMadame).1 (by decide),
   (cards_contains_remove_spec CardKind.omniCard
      (fun y => match y with
        | CardKind.omniCard => (1 : Int) | CardKind.mondstadtHashBrown => 2 | _ => 0)
      CardKind.sweetMadame).2.2.1 (by decide) (by decide)⟩

/-- C9: a payment that exactly satisfies a requirement and is contained in
the pool can be subtracted from the pool and added back, returning the pool
unchanged, hash included. -/
theorem dices_payment_idempotence (pool payment req : Dices)
    (_hjs : Dices.justSatisfy payment req)
    (hsub : ∀ e, payment e ≤ pool e) :
    (pool.subDices payment).addDices payment = pool
    ∧ Dices.hashDices ((pool.subDices payment).addDices payment)
      = Dices.hashDices pool := by
  have hfun : (pool.subDices payment).addDices payment = pool := by
    funext e
    show pool e - payment e + payment e = pool e
    exact Nat.sub_add_cancel (hsub e)
  exact ⟨hfun, congrArg _ hfun⟩

/-- C9 witness: pool `{pyro: 3, omni: 1}`, requirement `{pyro: 2}`, payment
`{pyro: 2}`. -/
theorem dices_payment_idempotence_witness :
    (Dices.justSatisfy
        (fun e => match e with | Element.pyro => 2 | _ => 0)
        (fun e => match e with | Element.pyro => 2 | _ => 0)
      ∧ ∀ e, (fun x => match x with | Element.pyro => 2 | _ => 0 : Dices) e
          ≤ (fun x => match x with | Element.pyro => 3 | Element.omni => 1 | _ => 0 : Dices) e)
    ∧ Dices.addDices
        (Dices.subDices
          (fun x => match x with | Element.pyro => 3 | Element.omni => 1 | _ => 0)
          (fun x => match x with | Element.pyro => 2 | _ => 0))
        (fun x => match x with | Element.pyro => 2 | _ => 0)
      = (fun x => match x with | Element.pyro => 3 | Element.omni => 1 | _ => 0)
    ∧ Dices.hashDices (Dices.addDices
        (Dices.subDices
          (fun x => match x with | Element.pyro => 3 | Element.omni => 1 | _ => 0)
          (fun x => match x with | Element.pyro => 2 | _ => 0))
        (fun x => match x with | Element.pyro => 2 | _ => 0))
      = Dices.hashDices (fun x => match x with
          | Element.pyro => 3 | Element.omni => 1 | _ => 0) :=
  ⟨⟨by decide, by decide⟩,
    dices_payment_idempotence
      (fun x => match x with | Element.pyro => 3 | Element.omni => 1 | _ => 0)
      (fun x => match x with | Element.pyro => 2 | _ => 0)
      (fun x => match x with | Element.pyro => 2 | _ => 0)
      (by decide) (by decide)⟩

end Dgisim
